import Mathlib

/-
Shallow embedding of the rating backend of vluis26/App_Team_Rating:
  backend/app/utils/helpers.py        (extract_city, fetch_and_assign_events)
  backend/ticketmaster_service.py     (search_events)
  backend/app/models.py               (UserModel, RestaurantRatingModel)
  backend/app/resources/restaurant_ratings.py
      (RestaurantRatings.post / .get, RestaurantRating.get / .patch,
       Average_Ratings.get, UserRatings.get, rating_post_args, rating_patch_args)

Strings are modelled with Lean String, Python str.split(",") with an explicit
recursive splitter over the character list, str.strip() with an ASCII
whitespace trimmer, machine integers with Int/Nat (no overflow is reachable in
the modelled code paths), the relational store with explicit lists of rows,
the wall clock with a Nat parameter, and the remote Ticketmaster lookup with
an oracle argument describing the network outcome.  Raising an exception is
modelled with Except; an aborted request returns an error value and leaves the
committed store unchanged (uncommitted session state is rolled back by the
framework at request teardown).
-/

namespace RatingApp

/-- An event summary as marshalled by event_fields (id, name, url). -/
structure Event where
  id : String
  name : String
  url : String
deriving DecidableEq

/-- A row of user_model (models.py lines 4-14). -/
structure User where
  id : Nat
  name : String
  email : String
deriving DecidableEq

/-- A row of restaurant_rating_model (models.py lines 16-46).  The events
field is the transient, never-persisted enrichment attribute; rows in the
store always carry an empty list, mirroring the fact that _events is not a
database column. -/
structure Rating where
  id : Nat
  restaurant_name : String
  restaurant_type : String
  restaurant_address : String
  rating : Int
  meal : String
  calories : Int
  date_posted : Nat
  city : String
  user_id : Option Nat
  events : List Event
deriving DecidableEq

/-- The committed relational store: the two tables plus the autoincrement
counter for rating ids. -/
structure Store where
  users : List User
  ratings : List Rating
  nextId : Nat
deriving DecidableEq

/-- An HTTP error response produced by abort(...) or by an uncaught
exception (status 500). -/
structure ApiError where
  status : Nat
  message : String
deriving DecidableEq

/-- The outcome of one resource operation: a success status paired with the
marshalled body, or an error response. -/
abbrev ApiResult (α : Type) := Except ApiError (Nat × α)

/-- Status code of a result, success or error. -/
def resStatus {α : Type} : ApiResult α → Nat
  | .ok (st, _) => st
  | .error e => e.status

/-- Whether an Except is a success. -/
def exceptIsOk {ε α : Type} : Except ε α → Bool
  | .ok _ => true
  | .error _ => false

/- ---------------------------------------------------------------------
   City extractor (helpers.py lines 6-26)
   --------------------------------------------------------------------- -/

/-- Python address.split(",") on the character list: "" yields [""], and
every comma opens a new (possibly empty) segment. -/
def splitComma : List Char → List (List Char)
  | [] => [[]]
  | c :: rest =>
    let r := splitComma rest
    if c = ',' then [] :: r
    else
      match r with
      | [] => [[c]]
      | h :: t => (c :: h) :: t

/-- ASCII whitespace as stripped by Python str.strip(). -/
def isPySpace (c : Char) : Bool :=
  c = ' ' || c = '\t' || c = '\n' || c = '\r' || c = '\x0b' || c = '\x0c'

/-- Python str.strip(): drop leading and trailing whitespace. -/
def strip (cs : List Char) : List Char :=
  ((cs.dropWhile isPySpace).reverse.dropWhile isPySpace).reverse

/-- helpers.py extract_city: split the address on commas; if fewer than two
parts exist return None, else return the stripped second part. -/
def extract_city (address : String) : Option String :=
  match splitComma address.toList with
  | _ :: second :: _ => some (String.mk (strip second))
  | _ => none

/- ---------------------------------------------------------------------
   Events lookup client (ticketmaster_service.py lines 13-51)
   --------------------------------------------------------------------- -/

/-- The observable outcome of the one outbound HTTP call in search_events:
requests.get raised (transportError), raise_for_status raised (httpError),
response.json() raised or produced a non-dict (jsonError), or a parsed JSON
document whose optional _embedded.events list is given. -/
inductive TMOutcome where
  | transportError (msg : String)
  | httpError (msg : String)
  | jsonError (msg : String)
  | ok (embedded : Option (List Event))
deriving DecidableEq

/-- Whether the outcome is one of the three failure shapes. -/
def TMOutcome.isFailure : TMOutcome → Bool
  | .ok _ => false
  | _ => true

/-- ticketmaster_service.search_events: on success return at most max_events
events (a missing _embedded or events key yields []); each failure shape is
re-raised as an Exception with the corresponding message (lines 46-51). -/
def search_events (outcome : TMOutcome) (max_events : Nat) :
    Except String (List Event) :=
  match outcome with
  | .transportError m => .error ("An error occurred while fetching events: " ++ m)
  | .httpError m => .error ("Ticketmaster API HTTP error: " ++ m)
  | .jsonError m => .error ("An error occurred while fetching events: " ++ m)
  | .ok embedded => .ok ((embedded.getD []).take max_events)

/-- A lookup oracle: for each city, the result of calling search_events
(an exception being modelled as Except.error). -/
abbrev Lookup := String → Except String (List Event)

/-- The lookup induced by a per-city network outcome, as the resource layer
calls it: search_events(city=..., max_events=3, classificationName="Music"). -/
def tmLookup (net : String → TMOutcome) : Lookup :=
  fun city => search_events (net city) 3

/-- helpers.py fetch_and_assign_events: call search_events for the rating
city and assign the result to the transient events attribute; any raised
exception is caught and an empty list is assigned instead (lines 38-44). -/
def fetch_and_assign_events (lk : Lookup) (r : Rating) : Rating :=
  match lk r.city with
  | .ok evs => { r with events := evs }
  | .error _ => { r with events := [] }

/- ---------------------------------------------------------------------
   Request parsing (restaurant_ratings.py lines 8-27)
   --------------------------------------------------------------------- -/

/-- The arguments of a creation request after rating_post_args.parse_args()
succeeded (lines 9-18): the six required fields are present and rating
passed the choices=[1,2,3,4,5] check; user_id, name and email are optional,
and the handler only uses user_id. -/
structure PostArgs where
  restaurant_name : String
  restaurant_type : String
  restaurant_address : String
  rating : Int
  meal : String
  calories : Int
  user_id : Option Nat
  name : Option String
  email : Option String
deriving DecidableEq

/-- The six arguments registered with rating_patch_args (lines 21-27).
No user_id argument is registered, so the parsed namespace carries no
user_id key. -/
structure PatchArgs where
  restaurant_name : Option String
  restaurant_type : Option String
  restaurant_address : Option String
  rating : Option Int
  meal : Option String
  calories : Option Int
deriving DecidableEq

/-- The JSON body a client may send to PATCH: the six registered fields plus
a user_id key, which rating_patch_args silently ignores because it was never
registered. -/
structure PatchBody where
  restaurant_name : Option String
  restaurant_type : Option String
  restaurant_address : Option String
  rating : Option Int
  meal : Option String
  calories : Option Int
  user_id : Option Nat
deriving DecidableEq

/-- The choices=[1,2,3,4,5] check of the rating argument, applied by
parse_args when the field is provided. -/
def ratingChoiceOk : Option Int → Bool
  | none => true
  | some v => v == 1 || v == 2 || v == 3 || v == 4 || v == 5

/-- rating_patch_args.parse_args() on a request body: reject with 400 when a
provided rating fails the choices check, otherwise keep exactly the six
registered arguments (the user_id key of the body is dropped). -/
def parsePatchBody (b : PatchBody) : Except ApiError PatchArgs :=
  if ratingChoiceOk b.rating then
    .ok { restaurant_name := b.restaurant_name
          restaurant_type := b.restaurant_type
          restaurant_address := b.restaurant_address
          rating := b.rating
          meal := b.meal
          calories := b.calories }
  else
    .error ⟨400, "Rating (1-5) is required"⟩

/-- Python truthiness of an optional string: an absent value and the empty
string are both falsy. -/
def pyTruthyStrOpt : Option String → Bool
  | some s => !s.isEmpty
  | none => false

/-- Python truthiness of an optional integer: an absent value and 0 are both
falsy. -/
def pyTruthyIntOpt : Option Int → Bool
  | some n => n != 0
  | none => false

/- ---------------------------------------------------------------------
   Resource operations (restaurant_ratings.py)
   --------------------------------------------------------------------- -/

/-- The RestaurantRatingModel constructor call of lines 78-87: the new row,
with the autoincrement id and the date_posted column default, which is the
datetime value computed once at import time. -/
def newRatingOf (moduleLoadTime : Nat) (s : Store) (args : PostArgs)
    (city : String) : Rating :=
  { id := s.nextId
    restaurant_name := args.restaurant_name
    restaurant_type := args.restaurant_type
    restaurant_address := args.restaurant_address
    rating := args.rating
    meal := args.meal
    calories := args.calories
    date_posted := moduleLoadTime
    city := city
    user_id := args.user_id
    events := [] }

/-- RestaurantRatings.post (lines 61-95).  moduleLoadTime is the single
datetime.now(timezone.utc) value computed when models.py was imported: the
date_posted column default is that fixed datetime, not a callable, so every
row receives moduleLoadTime and the wall-clock instant now of the request is
never consulted. -/
def post (moduleLoadTime now : Nat) (lk : Lookup) (s : Store)
    (args : PostArgs) : ApiResult Rating × Store :=
  -- city = extract_city(address); if not city: abort(400)
  -- (a missing extraction and an extracted empty string are both falsy)
  match extract_city args.restaurant_address with
  | none => (.error ⟨400, "Could not extract city from address."⟩, s)
  | some city =>
    if city.isEmpty then
      (.error ⟨400, "Could not extract city from address."⟩, s)
    else
      let newRating : Rating := newRatingOf moduleLoadTime s args city
      let s' : Store :=
        { s with ratings := s.ratings ++ [newRating], nextId := s.nextId + 1 }
      let _requestClock := now
      (.ok (201, fetch_and_assign_events lk newRating), s')

/-- The optional query filters of the list endpoint (lines 109-114). -/
structure ListFilters where
  restaurant_name : Option String
  restaurant_type : Option String
  min_rating : Option Int
  max_rating : Option Int
deriving DecidableEq

/-- Case-insensitive containment of pat in value, the meaning of the SQL
ilike pattern built from the filter value. -/
def listContainsSub (p : List Char) : List Char → Bool
  | [] => p.isEmpty
  | c :: t => p.isPrefixOf (c :: t) || listContainsSub p t

/-- ilike with a pattern wrapped in percent wildcards: case-insensitive
substring match. -/
def ilikeContains (value pat : String) : Bool :=
  listContainsSub pat.toLower.toList value.toLower.toList

/-- RestaurantRatings.get (lines 97-133): apply the truthy filters
conjunctively, then enrich every matching rating with events. -/
def getMany (lk : Lookup) (s : Store) (f : ListFilters) :
    ApiResult (List Rating) :=
  let q1 := if pyTruthyStrOpt f.restaurant_name then
      s.ratings.filter (fun r => ilikeContains r.restaurant_name (f.restaurant_name.getD ""))
    else s.ratings
  let q2 := if pyTruthyStrOpt f.restaurant_type then
      q1.filter (fun r => ilikeContains r.restaurant_type (f.restaurant_type.getD ""))
    else q1
  let q3 := if pyTruthyIntOpt f.min_rating then
      q2.filter (fun r => f.min_rating.getD 0 ≤ r.rating)
    else q2
  let q4 := if pyTruthyIntOpt f.max_rating then
      q3.filter (fun r => r.rating ≤ f.max_rating.getD 0)
    else q3
  .ok (200, q4.map (fetch_and_assign_events lk))

/-- RestaurantRating.get (lines 142-159): 404 when the id has no row,
otherwise the enriched rating with status 200. -/
def getOne (lk : Lookup) (s : Store) (id : Nat) : ApiResult Rating :=
  match s.ratings.find? (fun r => r.id == id) with
  | none => .error ⟨404, "Restaurant rating not found."⟩
  | some r => .ok (200, fetch_and_assign_events lk r)

/-- Lines 182-189 of RestaurantRating.patch: when a truthy address is
provided, overwrite restaurant_address, re-extract the city and overwrite it
when the extraction is truthy; a falsy extraction aborts with 400 (modelled
as none). -/
def applyAddr (args : PatchArgs) (r : Rating) : Option Rating :=
  match args.restaurant_address with
  | none => some r
  | some a =>
    if a.isEmpty then some r
    else
      let r' := { r with restaurant_address := a }
      match extract_city a with
      | some c => if c.isEmpty then none else some { r' with city := c }
      | none => none

/-- RestaurantRating.patch (lines 161-208).  Each truthy provided field
overwrites the draft row in session order; a falsy city extraction for a
truthy new address aborts with 400.  Line 196 then reads args of the key
user_id, which rating_patch_args never registered, so the dict lookup raises
KeyError and the framework answers 500: the commit on line 203 and the
enrichment on line 206 are unreachable, and the committed store is left
unchanged on every path. -/
def patch (lk : Lookup) (s : Store) (id : Nat) (args : PatchArgs) :
    ApiResult Rating × Store :=
  match s.ratings.find? (fun r => r.id == id) with
  | none => (.error ⟨404, "Restaurant rating not found."⟩, s)
  | some r0 =>
    let r1 := if pyTruthyStrOpt args.restaurant_name then
        { r0 with restaurant_name := args.restaurant_name.getD "" } else r0
    let r2 := if pyTruthyStrOpt args.restaurant_type then
        { r1 with restaurant_type := args.restaurant_type.getD "" } else r1
    match applyAddr args r2 with
    | none => (.error ⟨400, "Could not extract city from new address."⟩, s)
    | some r3 =>
      let r4 := if pyTruthyIntOpt args.rating then
          { r3 with rating := args.rating.getD 0 } else r3
      let r5 := if pyTruthyStrOpt args.meal then
          { r4 with meal := args.meal.getD "" } else r4
      let r6 := if pyTruthyIntOpt args.calories then
          { r5 with calories := args.calories.getD 0 } else r5
      let _uncommittedDraft := (lk, r6)
      (.error ⟨500, "KeyError: user_id"⟩, s)

/-- The PATCH endpoint: parse_args (which may abort with 400) followed by
the handler body. -/
def patchEndpoint (lk : Lookup) (s : Store) (id : Nat) (b : PatchBody) :
    ApiResult Rating × Store :=
  match parsePatchBody b with
  | .error e => (.error e, s)
  | .ok args => patch lk s id args

/- ---------------------------------------------------------------------
   Aggregation (restaurant_ratings.py lines 228-257) and per-user listing
   (lines 301-332)
   --------------------------------------------------------------------- -/

/-- Python round(): round half to even, on exact rationals (the floats
reachable in the modelled paths are exactly representable). -/
def pyRound (q : ℚ) : ℤ :=
  let fl := ⌊q⌋
  let frac := q - (fl : ℚ)
  if frac < 1 / 2 then fl
  else if 1 / 2 < frac then fl + 1
  else if fl % 2 = 0 then fl else fl + 1

/-- round(x, 2): round half to even at two decimal places. -/
def pyRound2 (q : ℚ) : ℚ := ((pyRound (q * 100) : ℚ)) / 100

/-- The distinct group keys of a GROUP BY, one per name occurring in the
rows, first occurrence first. -/
def dedupFirst (seen : List String) : List String → List String
  | [] => []
  | n :: rest =>
    if seen.contains n then dedupFirst seen rest
    else n :: dedupFirst (n :: seen) rest

/-- All distinct restaurant names of a row list. -/
def distinctNames (l : List String) : List String := dedupFirst [] l

/-- The rating values of the group of a given restaurant name. -/
def groupVals (s : Store) (n : String) : List Int :=
  (s.ratings.filter (fun r => r.restaurant_name == n)).map (fun r => r.rating)

/-- Average_Ratings.get (lines 233-257): group the rows by restaurant name,
take avg(rating) per group, and marshal each group as
round(average_rating, 2) if average_rating else None. -/
def averageRatingsGet (s : Store) : ApiResult (List (String × Option ℚ)) :=
  let names := distinctNames (s.ratings.map (fun r => r.restaurant_name))
  .ok (200, names.map (fun n =>
    let grp := groupVals s n
    let avg : ℚ := (grp.sum : ℚ) / (grp.length : ℚ)
    (n, if avg = 0 then none else some (pyRound2 avg))))

/-- UserRatings.get (lines 306-332): 404 when the user id has no row, 404
when the user owns no ratings, otherwise the enriched owned ratings with
status 200. -/
def userRatingsGet (lk : Lookup) (s : Store) (uid : Nat) :
    ApiResult (List Rating) :=
  match s.users.find? (fun u => u.id == uid) with
  | none => .error ⟨404, "User not found."⟩
  | some _ =>
    let owned := s.ratings.filter (fun r => r.user_id == some uid)
    if owned.isEmpty then .error ⟨404, "No ratings found for user."⟩
    else .ok (200, owned.map (fetch_and_assign_events lk))

/- ---------------------------------------------------------------------
   Concrete fixtures used by witnesses and counterexamples
   --------------------------------------------------------------------- -/

/-- A lookup whose remote call fails for every city. -/
def lkFail : Lookup := fun _ => Except.error "events provider down"

/-- A lookup whose remote call succeeds for every city. -/
def lkOk : Lookup := fun _ => Except.ok [⟨"E1", "Concert", "urlE1"⟩]

/-- The empty store of a fresh database. -/
def emptyStore : Store := ⟨[], [], 1⟩

/-- A stored rating owned by user 1. -/
def ratingR1 : Rating :=
  ⟨1, "Marios", "Italian", "12 Main St, Springfield", 5, "pizza", 800, 0,
   "Springfield", some 1, []⟩

/-- A stored user. -/
def user1 : User := ⟨1, "alice", "alice at example"⟩

/-- A store holding user1 and ratingR1. -/
def storeC3 : Store := ⟨[user1], [ratingR1], 2⟩

/-- Post arguments with a comma-containing address. -/
def argsComma : PostArgs :=
  ⟨"Marios", "Italian", "12 Main St, Springfield, IL", 5, "pizza", 800,
   none, none, none⟩

/-- Post arguments whose address contains no comma. -/
def argsNoComma : PostArgs :=
  ⟨"Marios", "Italian", "123 Main Street", 4, "pasta", 700, none, none, none⟩

/- ---------------------------------------------------------------------
   Helper lemmas
   --------------------------------------------------------------------- -/

theorem fetch_of_error (lk : Lookup) (r : Rating)
    (h : exceptIsOk (lk r.city) = false) :
    fetch_and_assign_events lk r = { r with events := [] } := by
  unfold fetch_and_assign_events
  cases hc : lk r.city with
  | ok evs => rw [hc] at h; simp [exceptIsOk] at h
  | error m => rfl

theorem fetch_city (lk : Lookup) (r : Rating) :
    (fetch_and_assign_events lk r).city = r.city := by
  unfold fetch_and_assign_events
  cases lk r.city <;> rfl

theorem splitComma_no_comma (cs : List Char) (h : ',' ∉ cs) :
    splitComma cs = [cs] := by
  induction cs with
  | nil => rfl
  | cons c t ih =>
    have hc : ¬(c = ',') := by
      intro hh
      exact h (by rw [hh]; exact List.mem_cons_self ',' t)
    have ht : ',' ∉ t := fun hm => h (List.mem_cons_of_mem c hm)
    unfold splitComma
    rw [ih ht]
    simp [hc]

theorem extract_city_no_comma (addr : String) (h : ',' ∉ addr.toList) :
    extract_city addr = none := by
  unfold extract_city
  rw [splitComma_no_comma addr.toList h]

theorem splitComma_cons_comma (t : List Char) :
    splitComma (',' :: t) = [] :: splitComma t := rfl

theorem splitComma_cons_other (c : Char) (t : List Char) (hc : ¬(c = ',')) :
    splitComma (c :: t) =
      match splitComma t with
      | [] => [[c]]
      | h :: u => (c :: h) :: u := by
  have h0 : splitComma (c :: t) =
      (if c = ',' then [] :: splitComma t
       else
         match splitComma t with
         | [] => [[c]]
         | h :: u => (c :: h) :: u) := rfl
  rw [h0, if_neg hc]

theorem splitComma_head (cs : List Char) :
    ∃ t, splitComma cs = cs.takeWhile (fun c => c != ',') :: t := by
  induction cs with
  | nil => exact ⟨[], rfl⟩
  | cons c t ih =>
    obtain ⟨u, hu⟩ := ih
    by_cases hc : c = ','
    · subst hc
      exact ⟨splitComma t, by rw [splitComma_cons_comma]; simp [List.takeWhile_cons]⟩
    · refine ⟨u, ?_⟩
      rw [splitComma_cons_other c t hc, hu]
      simp [List.takeWhile_cons, hc]

theorem splitComma_append (pre : List Char) (hpre : ',' ∉ pre) :
    ∀ cs h t, splitComma cs = h :: t →
      splitComma (pre ++ cs) = (pre ++ h) :: t := by
  induction pre with
  | nil => intro cs h t hcs; simpa using hcs
  | cons c p ih =>
    intro cs h t hcs
    have hc : ¬(c = ',') := by
      intro hh
      exact hpre (by rw [hh]; exact List.mem_cons_self ',' p)
    have hp : ',' ∉ p := fun hm => hpre (List.mem_cons_of_mem c hm)
    have hrec := ih hp cs h t hcs
    show splitComma (c :: (p ++ cs)) = ((c :: p) ++ h) :: t
    rw [splitComma_cons_other c (p ++ cs) hc, hrec]
    rfl

theorem extract_city_second_segment (addr : String) (pre post_ : List Char)
    (haddr : addr.toList = pre ++ ',' :: post_) (hpre : ',' ∉ pre) :
    extract_city addr =
      some (String.mk (strip (post_.takeWhile (fun c => c != ',')))) := by
  obtain ⟨u, hu⟩ := splitComma_head post_
  have hcomma : splitComma (',' :: post_) = [] :: splitComma post_ :=
    splitComma_cons_comma post_
  have hall := splitComma_append pre hpre (',' :: post_) [] (splitComma post_) hcomma
  unfold extract_city
  rw [haddr, hall, hu]

theorem mem_dedupFirst (l : List String) :
    ∀ seen n, n ∈ dedupFirst seen l → n ∈ l := by
  induction l with
  | nil => intro seen n h; simp [dedupFirst] at h
  | cons m rest ih =>
    intro seen n h
    unfold dedupFirst at h
    by_cases hm : seen.contains m
    · rw [if_pos hm] at h
      exact List.mem_cons_of_mem m (ih seen n h)
    · rw [if_neg hm] at h
      rcases List.mem_cons.mp h with h1 | h2
      · exact h1 ▸ List.mem_cons_self n rest
      · exact List.mem_cons_of_mem m (ih (m :: seen) n h2)

theorem length_le_sum (l : List Int) (h : ∀ x ∈ l, 1 ≤ x) :
    (l.length : ℤ) ≤ l.sum := by
  induction l with
  | nil => simp
  | cons x t ih =>
    have hx : 1 ≤ x := h x (List.mem_cons_self x t)
    have ht : (t.length : ℤ) ≤ t.sum := ih fun y hy => h y (List.mem_cons_of_mem x hy)
    simp only [List.length_cons, List.sum_cons]
    push_cast
    linarith

theorem applyAddr_none (args : PatchArgs) (r : Rating) (a : String)
    (haddr : args.restaurant_address = some a) (hne : a.isEmpty = false)
    (hfail : pyTruthyStrOpt (extract_city a) = false) :
    applyAddr args r = none := by
  unfold applyAddr
  rw [haddr]
  simp only [hne, Bool.false_eq_true, if_false]
  cases hc : extract_city a with
  | none => rfl
  | some c =>
    have hce : c.isEmpty = true := by
      rw [hc] at hfail
      simpa [pyTruthyStrOpt] using hfail
    simp [hce]

theorem post_ok_inv (mlt now : Nat) (lk : Lookup) (s : Store)
    (args : PostArgs) (st : Nat) (r : Rating) (s2 : Store)
    (h : post mlt now lk s args = (Except.ok (st, r), s2)) :
    ∃ city, extract_city args.restaurant_address = some city ∧
      city.isEmpty = false ∧ st = 201 ∧
      r = fetch_and_assign_events lk (newRatingOf mlt s args city) ∧
      s2 = ⟨s.users, s.ratings ++ [newRatingOf mlt s args city], s.nextId + 1⟩ := by
  unfold post at h
  cases hx : extract_city args.restaurant_address with
  | none => rw [hx] at h; simp at h
  | some city =>
    rw [hx] at h
    dsimp only at h
    by_cases hce : city.isEmpty
    · rw [if_pos hce] at h; simp at h
    · rw [if_neg hce] at h
      simp only [Prod.mk.injEq, Except.ok.injEq] at h
      obtain ⟨⟨hst, hr⟩, hs⟩ := h
      exact ⟨city, rfl, by simpa using hce, hst.symm, hr.symm, hs.symm⟩

/- ---------------------------------------------------------------------
   Claim theorems
   --------------------------------------------------------------------- -/

/-- Claim C2: the spec says a PATCH overwrites each provided field and leaves
omitted fields unchanged.  The code cannot do either: rating_patch_args never
registers a user_id argument, yet the handler reads args of that key, so
every PATCH that reaches line 196 raises KeyError and the commit on line 203
is unreachable.  This theorem evaluates the code: for every lookup, store,
id and parsed argument set, the PATCH handler leaves the committed store
untouched and never returns a success. -/
theorem patch_never_commits (lk : Lookup) (s : Store) (id : Nat)
    (args : PatchArgs) :
    (patch lk s id args).2 = s ∧ exceptIsOk (patch lk s id args).1 = false := by
  unfold patch
  cases hfind : s.ratings.find? (fun r => r.id == id) with
  | none => exact ⟨rfl, rfl⟩
  | some r0 =>
    simp only
    cases happ : applyAddr args
        (if pyTruthyStrOpt args.restaurant_type then
          { (if pyTruthyStrOpt args.restaurant_name then
              { r0 with restaurant_name := args.restaurant_name.getD "" }
            else r0) with restaurant_type := args.restaurant_type.getD "" }
         else
          (if pyTruthyStrOpt args.restaurant_name then
            { r0 with restaurant_name := args.restaurant_name.getD "" }
          else r0)) with
    | none => exact ⟨rfl, rfl⟩
    | some r3 => exact ⟨rfl, rfl⟩

/-- Claim C3: the spec says a PATCH carrying a user reference is rejected
with 400 when the user does not exist and otherwise re-points the rating at
the user.  The code does neither: the PATCH parser drops the user_id key of
the body, and the handler then raises KeyError reading it, answering 500 and
committing nothing — for a missing user (999) and for an existing one (1)
alike. -/
theorem patch_user_reference_broken :
    patchEndpoint lkFail storeC3 1 ⟨none, none, none, none, none, none, some 999⟩ =
      (Except.error ⟨500, "KeyError: user_id"⟩, storeC3) ∧
    patchEndpoint lkFail storeC3 1 ⟨none, none, none, none, none, none, some 1⟩ =
      (Except.error ⟨500, "KeyError: user_id"⟩, storeC3) :=
  ⟨rfl, rfl⟩

/-- Claim C10: the spec says the creation timestamp is assigned at the moment
of each creation, so creations at different times differ.  The code evaluates
datetime.now(timezone.utc) once when models.py is imported and uses that
value as the column default, so the request clock is never read: creating at
time 100 and then at time 200 (module loaded at 7) stores date_posted 7 for
both rows, and the whole response is independent of the request time. -/
theorem date_posted_is_import_time :
    post 7 100 lkFail emptyStore argsComma = post 7 200 lkFail emptyStore argsComma ∧
    (post 7 100 lkFail emptyStore argsComma).2.ratings.map (fun r => r.date_posted) = [7] ∧
    ((post 7 200 lkFail (post 7 100 lkFail emptyStore argsComma).2
        argsComma).2.ratings.map (fun r => r.date_posted)) = [7, 7] :=
  ⟨rfl, rfl, rfl⟩

/-- Claim C5 (counterexample): on a transport failure the events lookup
client does not return an empty list — it raises, as its own docstring
states: the call produces an error result, not a success. -/
theorem search_events_propagates_failure :
    search_events (TMOutcome.transportError "connection refused") 3 =
      Except.error "An error occurred while fetching events: connection refused" ∧
    exceptIsOk (search_events (TMOutcome.transportError "connection refused") 3) = false :=
  ⟨rfl, rfl⟩

/-- Claim C5 (amended): on any transport failure, non-success status, or
malformed response, search_events raises the failure to its caller; the
resource-layer helper fetch_and_assign_events is what absorbs the exception,
leaving the rating with an empty events list. -/
theorem search_events_raises_and_helper_absorbs :
    (∀ (o : TMOutcome) (max_events : Nat), TMOutcome.isFailure o = true →
      exceptIsOk (search_events o max_events) = false) ∧
    (∀ (net : String → TMOutcome) (r : Rating),
      TMOutcome.isFailure (net r.city) = true →
      fetch_and_assign_events (tmLookup net) r = { r with events := [] }) := by
  constructor
  · intro o max_events ho
    cases o with
    | transportError m => rfl
    | httpError m => rfl
    | jsonError m => rfl
    | ok embedded => simp [TMOutcome.isFailure] at ho
  · intro net r hnet
    unfold fetch_and_assign_events tmLookup
    cases ho : net r.city with
    | transportError m => rfl
    | httpError m => rfl
    | jsonError m => rfl
    | ok embedded => rw [ho] at hnet; simp [TMOutcome.isFailure] at hnet

/-- Claim C5 witness: a concrete 503 from the provider is a failure outcome,
and the helper turns it into an empty enrichment on a concrete rating. -/
theorem search_events_absorb_witness :
    TMOutcome.isFailure (TMOutcome.httpError "503 Service Unavailable") = true ∧
    fetch_and_assign_events
        (tmLookup (fun _ => TMOutcome.httpError "503 Service Unavailable")) ratingR1 =
      { ratingR1 with events := [] } :=
  ⟨rfl, search_events_raises_and_helper_absorbs.2
    (fun _ => TMOutcome.httpError "503 Service Unavailable") ratingR1 rfl⟩

/-- Claim C6: a creation whose address contains no comma is rejected with 400
before any persistence: the response is the abort message and the store is
returned unchanged, for every module load time, request time, lookup, store
and argument set. -/
theorem post_no_comma_rejected (mlt now : Nat) (lk : Lookup) (s : Store)
    (args : PostArgs) (hnc : ',' ∉ args.restaurant_address.toList) :
    post mlt now lk s args =
      (Except.error ⟨400, "Could not extract city from address."⟩, s) := by
  simp only [post]
  rw [extract_city_no_comma args.restaurant_address hnc]

/-- Claim C6 witness: the concrete comma-free address is rejected on the
empty store, which stays empty. -/
theorem post_no_comma_witness :
    post 0 0 lkFail emptyStore argsNoComma =
      (Except.error ⟨400, "Could not extract city from address."⟩, emptyStore) :=
  post_no_comma_rejected 0 0 lkFail emptyStore argsNoComma (by decide)

/-- A PATCH body providing the empty-string address together with another
field change. -/
def bodyEmptyAddr : PatchBody := ⟨none, none, some "", none, some "sushi", none, none⟩

/-- A PATCH body providing a non-empty address without a comma. -/
def bodyBadAddr : PatchBody :=
  ⟨none, none, some "123 Main Street", none, some "sushi", none, none⟩

/-- Claim C4 (counterexample): the claim promises a 400 rejection for every
provided address whose city derivation fails, but the empty string is such an
address (its split has a single segment) and the handler skips the address
branch on it because the empty string is falsy: the request then dies with
the KeyError 500, not a 400. -/
theorem patch_empty_address_not_rejected_400 :
    extract_city "" = none ∧
    patchEndpoint lkFail storeC3 1 bodyEmptyAddr =
      (Except.error ⟨500, "KeyError: user_id"⟩, storeC3) :=
  ⟨rfl, rfl⟩

/-- Claim C4 (amended): for every PATCH on an existing rating that provides a
non-empty address whose city derivation fails (fewer than two comma-separated
segments, or an empty second segment), the update is rejected with 400 and
the committed store is unchanged. -/
theorem patch_bad_address_rejected (lk : Lookup) (s : Store) (id : Nat)
    (b : PatchBody) (r0 : Rating)
    (hfound : s.ratings.find? (fun r => r.id == id) = some r0)
    (hchoice : ratingChoiceOk b.rating = true)
    (a : String) (haddr : b.restaurant_address = some a)
    (hne : a.isEmpty = false)
    (hfail : pyTruthyStrOpt (extract_city a) = false) :
    patchEndpoint lk s id b =
      (Except.error ⟨400, "Could not extract city from new address."⟩, s) := by
  unfold patchEndpoint parsePatchBody
  rw [if_pos hchoice]
  dsimp only
  unfold patch
  rw [hfound]
  dsimp only
  rw [applyAddr_none _ _ a haddr hne hfail]

/-- Claim C4 witness: a concrete comma-free non-empty address on a concrete
store is rejected with 400 and the store is returned unchanged. -/
theorem patch_bad_address_witness :
    patchEndpoint lkFail storeC3 1 bodyBadAddr =
      (Except.error ⟨400, "Could not extract city from new address."⟩, storeC3) :=
  patch_bad_address_rejected lkFail storeC3 1 bodyBadAddr ratingR1 rfl rfl
    "123 Main Street" rfl rfl rfl

/-- Claim C7: extract_city returns the whitespace-trimmed second
comma-separated segment when the address has at least two segments (the
second segment being the characters between the first comma and the next
comma or the end) and an absence value when it has no comma; consequently a
successful creation with a comma-containing address stores exactly that
trimmed second segment as the city, both in the response and in the
persisted row. -/
theorem extract_city_second_segment_spec :
    (∀ addr : String, ',' ∉ addr.toList → extract_city addr = none) ∧
    (∀ (addr : String) (pre post_ : List Char),
      addr.toList = pre ++ ',' :: post_ → ',' ∉ pre →
      extract_city addr =
        some (String.mk (strip (post_.takeWhile (fun c => c != ','))))) ∧
    (∀ (mlt now : Nat) (lk : Lookup) (s : Store) (args : PostArgs)
        (st : Nat) (r : Rating) (s2 : Store),
      post mlt now lk s args = (Except.ok (st, r), s2) →
      ∀ pre post_, args.restaurant_address.toList = pre ++ ',' :: post_ →
        ',' ∉ pre →
        r.city = String.mk (strip (post_.takeWhile (fun c => c != ','))) ∧
        ∃ row, s2.ratings = s.ratings ++ [row] ∧ row.city = r.city) := by
  refine ⟨extract_city_no_comma, extract_city_second_segment, ?_⟩
  intro mlt now lk s args st r s2 hpost pre post_ haddr hpre
  obtain ⟨city, hx, hce, hst, hr, hs⟩ :=
    post_ok_inv mlt now lk s args st r s2 hpost
  have hseg := extract_city_second_segment args.restaurant_address pre post_ haddr hpre
  rw [hx] at hseg
  have hcity : city = String.mk (strip (post_.takeWhile (fun c => c != ','))) :=
    Option.some.inj hseg
  have hrcity : r.city = city := by
    rw [hr, fetch_city]
    rfl
  refine ⟨hrcity.trans hcity, ⟨newRatingOf mlt s args city, ?_, ?_⟩⟩
  · rw [hs]
  · rw [hrcity]; rfl

/-- Claim C7 witness: the address of the end-to-end example of the spec
extracts Springfield, and a concrete successful creation stores that city in
the response and in the appended row. -/
theorem extract_city_second_segment_witness :
    extract_city "12 Main St, Springfield, IL" = some "Springfield" := by
  have h := extract_city_second_segment_spec.2.1 "12 Main St, Springfield, IL"
    ("12 Main St".toList) (" Springfield, IL".toList) (by decide) (by decide)
  rw [h]
  decide

/-- Claim C9: the per-user listing answers 404 when the user id has no row,
404 when the user exists but owns no ratings (never an empty 200 list), and
otherwise 200 with every owned rating enriched with events. -/
theorem user_ratings_spec (lk : Lookup) (s : Store) (uid : Nat) :
    (s.users.find? (fun u => u.id == uid) = none →
      userRatingsGet lk s uid = Except.error ⟨404, "User not found."⟩) ∧
    (∀ u, s.users.find? (fun u2 => u2.id == uid) = some u →
      s.ratings.filter (fun r => r.user_id == some uid) = [] →
      userRatingsGet lk s uid = Except.error ⟨404, "No ratings found for user."⟩) ∧
    (∀ u, s.users.find? (fun u2 => u2.id == uid) = some u →
      s.ratings.filter (fun r => r.user_id == some uid) ≠ [] →
      userRatingsGet lk s uid =
        Except.ok (200, (s.ratings.filter (fun r => r.user_id == some uid)).map
          (fetch_and_assign_events lk))) := by
  refine ⟨?_, ?_, ?_⟩
  · intro hnone
    unfold userRatingsGet
    rw [hnone]
  · intro u hu hempty
    unfold userRatingsGet
    rw [hu]
    dsimp only
    rw [hempty]
    rfl
  · intro u hu hne
    unfold userRatingsGet
    rw [hu]
    dsimp only
    cases hf : s.ratings.filter (fun r => r.user_id == some uid) with
    | nil => exact absurd hf hne
    | cons a t => rfl

/-- A stored user owning zero ratings. -/
def user42 : User := ⟨42, "bob", "bob at example"⟩

/-- A store holding only user42 and no ratings. -/
def store42 : Store := ⟨[user42], [], 1⟩

/-- Claim C9 witness: the end-to-end example of the spec — the per-user
listing for user 42, who exists and owns zero ratings, answers 404, not an
empty 200 list. -/
theorem user_ratings_witness :
    userRatingsGet lkFail store42 42 =
      Except.error ⟨404, "No ratings found for user."⟩ :=
  (user_ratings_spec lkFail store42 42).2.1 user42 rfl rfl

theorem groupVals_avg_ne_zero (s : Store) (n : String)
    (hpos : ∀ r ∈ s.ratings, 1 ≤ r.rating)
    (hmem : n ∈ s.ratings.map (fun r => r.restaurant_name)) :
    ¬(((groupVals s n).sum : ℚ) / ((groupVals s n).length : ℚ) = 0) := by
  obtain ⟨r, hr, hrn⟩ := List.mem_map.mp hmem
  have hrf : r ∈ s.ratings.filter (fun r2 => r2.restaurant_name == n) :=
    List.mem_filter_of_mem hr (by simp [hrn])
  have hlen : 1 ≤ (groupVals s n).length := by
    unfold groupVals
    rw [List.length_map]
    exact List.length_pos.mpr (List.ne_nil_of_mem hrf)
  have hall : ∀ x ∈ groupVals s n, (1 : ℤ) ≤ x := by
    intro x hx
    obtain ⟨r2, hr2, hxr⟩ := List.mem_map.mp hx
    exact hxr ▸ hpos r2 (List.mem_of_mem_filter hr2)
  have hsum : ((groupVals s n).length : ℤ) ≤ (groupVals s n).sum :=
    length_le_sum _ hall
  have hsumpos : (0 : ℚ) < ((groupVals s n).sum : ℚ) := by
    have h1 : (1 : ℤ) ≤ (groupVals s n).sum := le_trans (by exact_mod_cast hlen) hsum
    exact_mod_cast lt_of_lt_of_le Int.zero_lt_one h1
  have hlenpos : (0 : ℚ) < ((groupVals s n).length : ℚ) := by
    exact_mod_cast lt_of_lt_of_le Nat.zero_lt_one hlen
  exact ne_of_gt (div_pos hsumpos hlenpos)

/-- Claim C8: the all-restaurants aggregation returns, for each distinct
restaurant name occurring among the stored rows, the arithmetic mean of the
rating values of that group, rounded to two decimal places (the marshalled
None branch is unreachable because the mean of nonempty 1-to-5 ratings is
never zero); every name in the result occurs among the stored rows, so a
restaurant with zero stored ratings never appears. -/
theorem average_ratings_spec (s : Store)
    (hpos : ∀ r ∈ s.ratings, 1 ≤ r.rating) :
    averageRatingsGet s = Except.ok (200,
      (distinctNames (s.ratings.map (fun r => r.restaurant_name))).map (fun n =>
        (n, some (pyRound2 (((groupVals s n).sum : ℚ) /
          ((groupVals s n).length : ℚ)))))) ∧
    (∀ (L : List (String × Option ℚ)) (n : String) (q : Option ℚ),
      averageRatingsGet s = Except.ok (200, L) → (n, q) ∈ L →
      n ∈ s.ratings.map (fun r => r.restaurant_name)) := by
  have h1 : averageRatingsGet s = Except.ok (200,
      (distinctNames (s.ratings.map (fun r => r.restaurant_name))).map (fun n =>
        (n, some (pyRound2 (((groupVals s n).sum : ℚ) /
          ((groupVals s n).length : ℚ)))))) := by
    unfold averageRatingsGet
    dsimp only
    congr 2
    apply List.map_congr_left
    intro n hn
    have hmem : n ∈ s.ratings.map (fun r => r.restaurant_name) :=
      mem_dedupFirst _ [] n hn
    rw [if_neg (groupVals_avg_ne_zero s n hpos hmem)]
  refine ⟨h1, ?_⟩
  intro L n q hL hmem
  rw [h1] at hL
  have hLeq : L = (distinctNames (s.ratings.map (fun r => r.restaurant_name))).map
      (fun n => (n, some (pyRound2 (((groupVals s n).sum : ℚ) /
        ((groupVals s n).length : ℚ))))) := by
    have h2 := Except.ok.inj hL
    exact ((Prod.ext_iff.mp h2).2).symm
  rw [hLeq] at hmem
  obtain ⟨n2, hn2, heq⟩ := List.mem_map.mp hmem
  have : n2 = n := (Prod.ext_iff.mp heq).1
  exact mem_dedupFirst _ [] n (this ▸ hn2)

/-- Three stored ratings of the same restaurant with values 3, 4 and 5. -/
def rat3 : Rating :=
  ⟨1, "Marios", "Italian", "1 A St, Springfield", 3, "pizza", 700, 0,
   "Springfield", none, []⟩

/-- Second fixture rating, value 4. -/
def rat4 : Rating :=
  ⟨2, "Marios", "Italian", "1 A St, Springfield", 4, "pasta", 600, 0,
   "Springfield", none, []⟩

/-- Third fixture rating, value 5. -/
def rat5 : Rating :=
  ⟨3, "Marios", "Italian", "1 A St, Springfield", 5, "soup", 300, 0,
   "Springfield", none, []⟩

/-- A store holding exactly the ratings 3, 4 and 5 of one restaurant. -/
def store345 : Store := ⟨[], [rat3, rat4, rat5], 4⟩

/-- Claim C8 witness: the group with ratings 3, 4 and 5 yields exactly the
average 4 (4.00 at two decimals). -/
theorem average_ratings_witness :
    (∀ r ∈ store345.ratings, 1 ≤ r.rating) ∧
    averageRatingsGet store345 = Except.ok (200, [("Marios", some 4)]) := by
  refine ⟨by decide, ?_⟩
  have h := (average_ratings_spec store345 (by decide)).1
  rw [h]
  have h1 : distinctNames (store345.ratings.map (fun r => r.restaurant_name)) =
      ["Marios"] := by decide
  have h2 : groupVals store345 "Marios" = [3, 4, 5] := by decide
  simp only [h1, h2, List.map_cons, List.map_nil]
  norm_num [pyRound2, pyRound, Int.fract]

theorem fetch_events_empty (lk : Lookup) (r : Rating)
    (h : exceptIsOk (lk r.city) = false) :
    (fetch_and_assign_events lk r).events = [] := by
  rw [fetch_of_error lk r h]

/-- Claim C1: for the five enriching operations (create, read one, read
many, partial update, per-user listing), the events lookup outcome never
influences the response status or the committed store — so a failing lookup
is never propagated to the caller — and when the lookup fails for every
city, every rating returned by a successful operation carries an empty
events list while the operation keeps its normal success status. -/
theorem events_failure_absorbed (lk lk2 : Lookup)
    (hfail : ∀ c, exceptIsOk (lk c) = false) :
    (∀ mlt now s args,
      resStatus (post mlt now lk s args).1 = resStatus (post mlt now lk2 s args).1 ∧
      (post mlt now lk s args).2 = (post mlt now lk2 s args).2) ∧
    (∀ s id, resStatus (getOne lk s id) = resStatus (getOne lk2 s id)) ∧
    (∀ s f, resStatus (getMany lk s f) = resStatus (getMany lk2 s f)) ∧
    (∀ s id args, patch lk s id args = patch lk2 s id args) ∧
    (∀ s uid,
      resStatus (userRatingsGet lk s uid) = resStatus (userRatingsGet lk2 s uid)) ∧
    (∀ mlt now s args st r s2,
      post mlt now lk s args = (Except.ok (st, r), s2) →
      st = 201 ∧ r.events = []) ∧
    (∀ s id st r, getOne lk s id = Except.ok (st, r) →
      st = 200 ∧ r.events = []) ∧
    (∀ s f st rs, getMany lk s f = Except.ok (st, rs) →
      st = 200 ∧ ∀ r ∈ rs, r.events = []) ∧
    (∀ s uid st rs, userRatingsGet lk s uid = Except.ok (st, rs) →
      st = 200 ∧ ∀ r ∈ rs, r.events = []) := by
  refine ⟨?_, ?_, ?_, ?_, ?_, ?_, ?_, ?_, ?_⟩
  · intro mlt now s args
    unfold post
    cases hx : extract_city args.restaurant_address with
    | none => exact ⟨rfl, rfl⟩
    | some city =>
      dsimp only
      by_cases hce : city.isEmpty = true
      · rw [if_pos hce, if_pos hce]; exact ⟨rfl, rfl⟩
      · rw [if_neg hce, if_neg hce]; exact ⟨rfl, rfl⟩
  · intro s id
    unfold getOne
    cases hx : s.ratings.find? (fun r => r.id == id) with
    | none => rfl
    | some r0 => rfl
  · intro s f
    rfl
  · intro s id args
    rfl
  · intro s uid
    unfold userRatingsGet
    cases hx : s.users.find? (fun u => u.id == uid) with
    | none => rfl
    | some u =>
      dsimp only
      cases hf : s.ratings.filter (fun r => r.user_id == some uid) with
      | nil => rfl
      | cons a t => rfl
  · intro mlt now s args st r s2 h
    obtain ⟨city, hx, hce, hst, hr, hs⟩ := post_ok_inv mlt now lk s args st r s2 h
    exact ⟨hst, by rw [hr]; exact fetch_events_empty lk _ (hfail _)⟩
  · intro s id st r h
    unfold getOne at h
    cases hx : s.ratings.find? (fun rr => rr.id == id) with
    | none => rw [hx] at h; simp at h
    | some r0 =>
      rw [hx] at h
      have h' : Except.ok (200, fetch_and_assign_events lk r0) =
          (Except.ok (st, r) : ApiResult Rating) := h
      simp only [Except.ok.injEq, Prod.mk.injEq] at h'
      obtain ⟨hst, hr⟩ := h'
      exact ⟨hst.symm, hr ▸ fetch_events_empty lk r0 (hfail _)⟩
  · intro s f st rs h
    unfold getMany at h
    dsimp only at h
    simp only [Except.ok.injEq, Prod.mk.injEq] at h
    obtain ⟨hst, hrs⟩ := h
    refine ⟨hst.symm, ?_⟩
    intro r hr
    rw [← hrs] at hr
    obtain ⟨r0, _, hr0⟩ := List.mem_map.mp hr
    rw [← hr0]
    exact fetch_events_empty lk r0 (hfail _)
  · intro s uid st rs h
    unfold userRatingsGet at h
    cases hx : s.users.find? (fun u => u.id == uid) with
    | none => rw [hx] at h; simp at h
    | some u =>
      rw [hx] at h
      dsimp only at h
      cases hf : s.ratings.filter (fun r => r.user_id == some uid) with
      | nil => rw [hf] at h; simp at h
      | cons a t =>
        rw [hf] at h
        have h' : Except.ok (200, (a :: t).map (fetch_and_assign_events lk)) =
            (Except.ok (st, rs) : ApiResult (List Rating)) := h
        simp only [Except.ok.injEq, Prod.mk.injEq] at h'
        obtain ⟨hst, hrs⟩ := h'
        refine ⟨hst.symm, ?_⟩
        intro r hr
        rw [← hrs] at hr
        obtain ⟨r0, _, hr0⟩ := List.mem_map.mp hr
        rw [← hr0]
        exact fetch_events_empty lk r0 (hfail _)

/-- Claim C1 witness: a lookup that fails for every city, applied to a
concrete read of rating 1: the read succeeds with status 200 and the
returned rating carries an empty events list. -/
theorem events_failure_absorbed_witness :
    (∀ c, exceptIsOk (lkFail c) = false) ∧
    (fetch_and_assign_events lkFail ratingR1).events = [] :=
  ⟨fun _ => rfl,
   ((events_failure_absorbed lkFail lkOk (fun _ => rfl)).2.2.2.2.2.2.1 storeC3 1
     200 (fetch_and_assign_events lkFail ratingR1) rfl).2⟩

end RatingApp
